import Mathlib

/-
  Shallow embedding of the MLOps-Alerting service (src/app.py) in Lean 4.

  Strings are modelled as `List Char`; Python text operations (str.split,
  str.strip, str.lower, str.upper, int(...)) are embedded as executable
  functions on `List Char`, restricted to the ASCII behaviour the
  application exercises.  External collaborators (BigQuery client, Vertex
  model, the HTTP clock) are passed in explicitly as function-valued
  fields of a `Config` record, mirroring the module-level globals of
  app.py; a collaborator call that may raise is modelled with `Except`.
-/

set_option autoImplicit false

namespace Alerting

abbrev Str := List Char

/-- The apostrophe character (kept out of string literals). -/
def sq : Char := Char.ofNat 39

/-- Python whitespace for `str.split()` / `str.strip()` (ASCII subset:
space, tab, newline, carriage return, vertical tab, form feed). -/
def pySpace (c : Char) : Bool :=
  c = ' ' || c = '\t' || c = '\n' || c = '\r' || c = Char.ofNat 11 || c = Char.ofNat 12

/-- Worker for `splitWs`: `acc` holds the chars of the current token, reversed. -/
def splitWsAux : List Char → List Char → List (List Char)
  | [], acc => if acc.isEmpty then [] else [acc.reverse]
  | c :: cs, acc =>
    if pySpace c then
      if acc.isEmpty then splitWsAux cs [] else acc.reverse :: splitWsAux cs []
    else splitWsAux cs (c :: acc)

/-- Python `text.split()`: split on runs of whitespace, dropping empty pieces. -/
def splitWs (s : Str) : List Str := splitWsAux s []

/-- Worker for `joinWith`: the tail of `sep.join(tokens)`. -/
def joinWithTail (sep : Str) : List Str → Str
  | [] => []
  | t :: ts => sep ++ t ++ joinWithTail sep ts

/-- Python `sep.join(tokens)`. -/
def joinWith (sep : Str) : List Str → Str
  | [] => []
  | t :: ts => t ++ joinWithTail sep ts

/-- Python `s.strip()`: drop leading and trailing whitespace. -/
def strip (s : Str) : Str :=
  ((s.dropWhile pySpace).reverse.dropWhile pySpace).reverse

/-- Python `s.lower()` (ASCII). -/
def lowerStr (s : Str) : Str := s.map Char.toLower

/-- Python `s.upper()` (ASCII). -/
def upperStr (s : Str) : Str := s.map Char.toUpper

/-- Python `s.startswith(p)`. -/
def startsWith : Str → Str → Bool
  | [], _ => true
  | _ :: _, [] => false
  | a :: ps, b :: bs => a == b && startsWith ps bs

/-- Python `t.split(":", 1)[1]`: everything after the first colon.  In
app.py this is only evaluated on tokens that are known to contain a
colon (their lowercase form starts with `service:` or `since:`). -/
def afterFirstColon (t : Str) : Str := (t.dropWhile (fun c => !(c == ':'))).tail

def digitVal (c : Char) : Nat := c.toNat - 48

/-- Digits of a Python `int()` literal after the first digit; a single
underscore is allowed between digits (Python 3 numeric literals). -/
def pyIntGo (acc : Nat) : List Char → Option Nat
  | [] => some acc
  | c :: rest =>
    if c = '_' then
      match rest with
      | [] => none
      | d :: rest2 => if d.isDigit then pyIntGo (acc * 10 + digitVal d) rest2 else none
    else if c.isDigit then pyIntGo (acc * 10 + digitVal c) rest
    else none

def pyIntDigits : List Char → Option Nat
  | [] => none
  | c :: rest => if c.isDigit then pyIntGo (digitVal c) rest else none

/-- Python `int(s)` on ASCII decimal text: optional surrounding whitespace,
optional sign, nonempty digit run; `none` models a raised `ValueError`. -/
def pyInt (s : Str) : Option Int :=
  match strip s with
  | '+' :: rest => (pyIntDigits rest).map (fun n => (n : Int))
  | '-' :: rest => (pyIntDigits rest).map (fun n => -(n : Int))
  | t => (pyIntDigits t).map (fun n => (n : Int))

def svcTag : Str := ("service:").toList

def sinceTag : Str := ("since:").toList

/-- True when the token is retained as part of the question (it is neither
a `service:` nor a `since:` filter token, case-insensitively). -/
def keepTok (t : Str) : Bool :=
  !(startsWith svcTag (lowerStr t)) && !(startsWith sinceTag (lowerStr t))

/-- The token loop of `parse_prompt_and_filters` (app.py lines 174-184).
State is `(parts, service, since_days)`. -/
def parseLoop : List Str → List Str × Option Str × Int → List Str × Option Str × Int
  | [], st => st
  | tok :: rest, (parts, service, since) =>
    if startsWith svcTag (lowerStr tok) then
      parseLoop rest (parts, some (afterFirstColon tok), since)
    else if startsWith sinceTag (lowerStr tok) then
      match pyInt (afterFirstColon tok) with
      | some n => parseLoop rest (parts, service, max 1 n)
      | none => parseLoop rest (parts, service, since)
    else parseLoop rest (parts ++ [tok], service, since)

/-- app.py `parse_prompt_and_filters` (lines 165-186).  The module-level
default `ASK_DEFAULT_SINCE_DAYS` is passed explicitly; it is read from the
environment with `int(...)`, hence an arbitrary integer. -/
def parse_prompt_and_filters (text : Str) (askDefaultSinceDays : Int) :
    Str × Option Str × Int :=
  let st := parseLoop (splitWs text) ([], none, askDefaultSinceDays)
  (strip (joinWith ([' ']) st.1), st.2.1, st.2.2)

/-! ### Context Fetcher (app.py `fetch_logs`, lines 188-226) -/

/-- A BigQuery result row: column name to value.  Values are modelled in
their stringified form (app.py serializes them with `default=str`). -/
abbrev Row := List (Str × Str)

/-- Decimal digits of a natural number, as Python `str(n)` / f-string
interpolation produces them. -/
def natStr (n : Nat) : Str := Nat.toDigits 10 n

/-- Python `str(n)` for an integer. -/
def intStr (n : Int) : Str :=
  match n with
  | Int.ofNat m => natStr m
  | Int.negSucc m => '-' :: natStr (m + 1)

/-- Default of config `ASK_MAX_ROWS` (app.py line 24). -/
def askMaxRows : Nat := 200

/-- Default of config `ASK_TS_COLUMN` (app.py line 25). -/
def askTsColumn : Str := ("ts").toList

/-- Default of config `ASK_SERVICE_COLUMN` (app.py line 26). -/
def askServiceColumn : Str := ("service").toList

/-- Default of config `BQ_DATASET` (app.py line 21). -/
def bqDataset : Str := ("chat_alert_test").toList

/-- Default of config `BQ_TABLE` (app.py line 22). -/
def bqTable : Str := ("alerts").toList

/-- Python truthiness of an `Optional[str]`: `None` and the empty string
are falsy. -/
def pyTruthyOptStr (o : Option Str) : Bool :=
  match o with
  | some s => !s.isEmpty
  | none => false

/-- The timestamp condition (app.py line 201):
`f"⟨ts column⟩ >= TIMESTAMP(| start_ts |)"` with single quotes around the
timestamp. -/
def tsCond (startTs : Str) : Str :=
  askTsColumn ++ (" >= TIMESTAMP(").toList ++ [sq] ++ startTs ++ [sq, ')']

/-- The service condition (app.py line 203). -/
def svcCond : Str :=
  ("LOWER(").toList ++ askServiceColumn ++ (") = LOWER(@service)").toList

/-- The WHERE clause list (app.py lines 201-204): the service condition
is appended under `if service:` — Python truthiness of the filter. -/
def buildWhere (service : Option Str) (startTs : Str) : List Str :=
  [tsCond startTs] ++ (if pyTruthyOptStr service then [svcCond] else [])

/-- The query parameter list (app.py lines 214-218): attached under
`if service else None` — again Python truthiness. -/
def queryParams (service : Option Str) : Option Str :=
  if pyTruthyOptStr service then service else none

/-- The SQL text of app.py lines 206-212 (triple-quoted f-string). -/
def buildSql (project : Str) (service : Option Str) (startTs : Str) : Str :=
  ("\n            SELECT *\n            FROM `").toList ++
    project ++ ('.' :: bqDataset) ++ ('.' :: bqTable) ++ ("`\n            WHERE ").toList ++
    joinWith ((" AND ").toList) (buildWhere service startTs) ++
    ("\n            ORDER BY ").toList ++ askTsColumn ++
    (" DESC\n            LIMIT ").toList ++ natStr askMaxRows ++
    ("\n        ").toList

/-- The collaborators and configuration that app.py keeps in module
globals (`PROJECT`, the BigQuery client, `_gen`, `ASK_DEFAULT_SINCE_DAYS`)
plus the clock.  `store` runs a SQL query with an optional `@service`
parameter; `gen` is the Vertex model (`None` when not configured), taking
the prompt to either an answer or a raised failure; `clock d` is the ISO
string of `now - timedelta(days=d)`. -/
structure Config where
  project : Option Str
  store : Str → Option Str → Except Str (List Row)
  gen : Option (Str → Except Str Str)
  askDefaultSinceDays : Int
  clock : Int → Str

/-- app.py `fetch_logs` (lines 188-226): empty on missing project
(`if not PROJECT`), empty on any storage failure (`except Exception`). -/
def fetch_logs (cfg : Config) (service : Option Str) (since_days : Int) : List Row :=
  match cfg.project with
  | none => []
  | some p =>
    if p.isEmpty then []
    else
      match cfg.store (buildSql p service (cfg.clock since_days)) (queryParams service) with
      | Except.ok rows => rows
      | Except.error _ => []

/-! ### Answer Composer (app.py `llm_answer`, lines 228-245) -/

def lbrace : Str := ("\x7b").toList

def rbrace : Str := ("\x7d").toList

/-- JSON string literal (escaping not needed for the rows modelled here). -/
def jsonQuote (s : Str) : Str := '"' :: s ++ ['"']

def jsonRowStr (r : Row) : Str :=
  lbrace ++ joinWith ((", ").toList) (r.map (fun kv => jsonQuote kv.1 ++ (": ").toList ++ jsonQuote kv.2)) ++ rbrace

/-- `json.dumps` of a list of rows (with `default=str` coercion already
applied to the values). -/
def jsonRowsStr (rs : List Row) : Str :=
  '[' :: joinWith ((", ").toList) (rs.map jsonRowStr) ++ [']']

/-- app.py line 232: `rows[: min(len(rows), 50)]`. -/
def llm_context_rows (rows : List Row) : List Row :=
  rows.take (min rows.length 50)

/-- app.py line 232: `json.dumps(rows[: min(len(rows), 50)], default=str) if rows else "[]"`. -/
def context_snippets (rows : List Row) : Str :=
  if rows.isEmpty then ("[]").toList else jsonRowsStr (llm_context_rows rows)

/-- The fixed system instruction (app.py lines 233-236). -/
def sysInstr : Str :=
  ("You are a reliability assistant. Use the provided recent logs to answer the user").toList ++
    [sq] ++ ("s question. Cite services, time ranges, and themes if visible; be concise and actionable.").toList

/-- The composed prompt (app.py line 237). -/
def llm_prompt (user_prompt : Str) (rows : List Row) : Str :=
  sysInstr ++ ("\n\nRecent rows JSON (truncated):\n").toList ++ context_snippets rows ++
    ("\n\nUser question:\n").toList ++ user_prompt

def vertexErrPre : Str := ("(Vertex error: ").toList

def fbPre : Str := ("(Vertex not configured) Based on recent rows (").toList

def fbMid : Str := (" found), no major anomalies detected. Question: ").toList

/-- app.py `llm_answer` (lines 228-245): `gen` is `_gen` together with the
outcome of `generate_content` (including the candidate/part extraction),
`Except.error` modelling any raised exception. -/
def llm_answer (gen : Option (Str → Except Str Str)) (user_prompt : Str) (rows : List Row) : Str :=
  match gen with
  | some g =>
    match g (llm_prompt user_prompt rows) with
    | Except.ok ans => ans
    | Except.error e => vertexErrPre ++ e ++ ([')'])
  | none => fbPre ++ natStr rows.length ++ fbMid ++ user_prompt

/-! ### Alert formatting (app.py `ErrorAlert`, `format_error_notification`) -/

structure ErrorAlert where
  service : Str
  error_type : Str
  message : Str
  timestamp : Option Str
  stack_trace : Option Str
  affected_users : Option Int
  severity : Str
  recent_logs : Option (List Str)
  environment : Str

/-- Association-list form of the severity emoji dict (app.py lines 97-102). -/
def severityMap : List (Str × Str) :=
  [((("LOW").toList), (("🟡").toList)),
   ((("MEDIUM").toList), (("🟠").toList)),
   ((("HIGH").toList), (("🔴").toList)),
   ((("CRITICAL").toList), (("🚨").toList))]

/-- Python `dict.get(key, default)` on an association list. -/
def assocGetD : List (Str × Str) → Str → Str → Str
  | [], _, d => d
  | (k, v) :: rest, key, d => if k = key then v else assocGetD rest key d

/-- The severity glyph lookup of app.py lines 97-102:
`severity_dict.get(alert.severity.upper(), "⚪")`. -/
def severity_emoji (sev : Str) : Str :=
  assocGetD severityMap (upperStr sev) (("⚪").toList)

/-- Python `a or b` for an optional string against a fallback
(`alert.timestamp or datetime.now(...)`): empty string is falsy. -/
def pyOrStr (a : Option Str) (b : Str) : Str :=
  match a with
  | some s => if s.isEmpty then b else s
  | none => b

/-- app.py `format_error_notification` (lines 91-126); `nowIso` stands for
`datetime.now(timezone.utc).isoformat()`. -/
def format_error_notification (alert : ErrorAlert) (nowIso : Str) : Str :=
  let timestamp := pyOrStr alert.timestamp nowIso
  let base :=
    severity_emoji alert.severity ++ (" **Production Error Alert**\n\n**Service:** ").toList ++
      alert.service ++ ("\n**Error:** ").toList ++ alert.error_type ++
      ("\n**Message:** ").toList ++ alert.message ++
      ("\n**Severity:** ").toList ++ alert.severity ++
      ("\n**Time:** ").toList ++ timestamp ++
      ("\n**Environment:** ").toList ++ alert.environment
  let base := base ++
    (match alert.affected_users with
     | some n => if n ≠ 0 then ("\n**Affected Users:** ~").toList ++ intStr n else []
     | none => [])
  let base := base ++
    (match alert.stack_trace with
     | some tr =>
       if !tr.isEmpty then
         ("\n**Stack Trace:** ```").toList ++
           (if 200 < tr.length then tr.take 200 ++ ("...").toList else tr) ++ ("```").toList
       else []
     | none => [])
  let base := base ++
    (match alert.recent_logs with
     | some ls =>
       if !ls.isEmpty then
         ("\n**Recent Logs:** ").toList ++ natStr ls.length ++ (" entries available").toList
       else []
     | none => [])
  base ++ ("\n\n💬 *Type `/ask <question>` to investigate this error*").toList

/-! ### Command Router (app.py `chat_endpoint`, lines 273-387)

The inbound event is the parsed JSON body (a JSON object, given as its
field list).  Python dictionary probing (`.get`), truthiness, and
`AttributeError`/`KeyError` from probing non-dict values are modelled
explicitly; `Except.error` marks an exception escaping the handler (HTTP
500).  The initial JSON-decode failure (HTTP 400, lines 278-283) happens
before the event exists and is outside this model. -/

/-- A JSON value as far as the router inspects it. -/
inductive JVal where
  | null : JVal
  | str : Str → JVal
  | obj : List (Str × JVal) → JVal

/-- First-match lookup in a JSON object's field list (Python dict keys are
unique, so first-match equals dict lookup). -/
def jlookup : List (Str × JVal) → Str → Option JVal
  | [], _ => none
  | (k, v) :: rest, key => if k = key then some v else jlookup rest key

/-- Python truthiness of a JSON value: `None`, `""`, `\x7b\x7d` are falsy. -/
def jTruthy : JVal → Bool
  | JVal.null => false
  | JVal.str s => !s.isEmpty
  | JVal.obj fs => !fs.isEmpty

/-- Python `v.get(key, default)`: raises `AttributeError` unless `v` is a
dict. -/
def dictGetD (v : JVal) (key : Str) (d : JVal) : Except Str JVal :=
  match v with
  | JVal.obj fs => Except.ok ((jlookup fs key).getD d)
  | _ => Except.error (("AttributeError").toList)

/-- Python `event[key]` on the top-level event dict: `KeyError` when absent. -/
def eventIndex (fs : List (Str × JVal)) (key : Str) : Except Str JVal :=
  match jlookup fs key with
  | some v => Except.ok v
  | none => Except.error (("KeyError").toList)

/-- Python `v[key]` on a JSON value. -/
def dictIndex (v : JVal) (key : Str) : Except Str JVal :=
  match v with
  | JVal.obj fs => eventIndex fs key
  | _ => Except.error (("TypeError").toList)

/-- Python `v.strip()` on a probed JSON value: `AttributeError` unless it
is a string. -/
def pyStrip (v : JVal) : Except Str Str :=
  match v with
  | JVal.str s => Except.ok (strip s)
  | _ => Except.error (("AttributeError").toList)

/-- Python `v == "lit"` for a probed JSON value against a string literal. -/
def jIsStr (v : JVal) (s : Str) : Bool :=
  match v with
  | JVal.str t => decide (t = s)
  | _ => false

def greetingText : Str :=
  ("Hey! I monitor production errors and can answer questions.\nType `/ask <question>` or mention me with `@Prod Alert AI <question>`.").toList

def usageSlash : Str :=
  ("Usage: `/ask <question> [service:... since:N]`\nExample: `/ask why is auth failing? service:user-auth since:1`").toList

def usageMention : Str :=
  ("Usage: `@Prod Alert AI <question>` or `/ask <question>`\nExample: `@Prod Alert AI why is auth failing?`").toList

def fallbackText : Str :=
  ("I monitor production errors. Type `/ask <question>` or mention me to investigate.").toList

def textK : Str := ("text").toList

def threadK : Str := ("thread").toList

def nameK : Str := ("name").toList

def chatK : Str := ("chat").toList

def acpK : Str := ("appCommandPayload").toList

def mpK : Str := ("messagePayload").toList

def messageK : Str := ("message").toList

def argK : Str := ("argumentText").toList

def typeK : Str := ("type").toList

/-- The parse → fetch → answer pipeline and response dict shared verbatim
by app.py lines 301-320, 336-355 and 375-384: note the `thread` key is
always present, mapped to `None` when `thread_name` is falsy. -/
def pipelineResponse (cfg : Config) (text : Str) (threadName : JVal) : List (Str × JVal) :=
  let parsed := parse_prompt_and_filters text cfg.askDefaultSinceDays
  let rows := fetch_logs cfg parsed.2.1 parsed.2.2
  let answer := llm_answer cfg.gen parsed.1 rows
  let responseText :=
    ("**Q:** ").toList ++ parsed.1 ++ ("\n**A:** ").toList ++ answer ++
      (if rows.isEmpty then []
       else ("\n\n*Based on ").toList ++ natStr rows.length ++ (" recent alerts*").toList)
  [(textK, JVal.str responseText),
   (threadK, if jTruthy threadName then JVal.obj [(nameK, threadName)] else JVal.null)]

/-- The guard of app.py lines 288 and 323:
`event.get("chat") and event.get("chat", ...).get(payloadKey)`, as a
truthiness value (errors when a truthy `chat` is not a dict). -/
def chatGuard (event : List (Str × JVal)) (payloadKey : Str) : Except Str Bool :=
  let chatV := (jlookup event chatK).getD JVal.null
  if jTruthy chatV then
    match dictGetD chatV payloadKey JVal.null with
    | Except.ok p => Except.ok (jTruthy p)
    | Except.error e => Except.error e
  else Except.ok false

/-- The shared body of the two chat-payload branches (app.py lines
290-320 and 325-355): extract `argumentText` and the thread name from
`payload.message`, return usage text when empty, else run the pipeline. -/
def branchBody (cfg : Config) (payload : JVal) (usage : Str) :
    Except Str (List (Str × JVal)) :=
  match dictGetD payload messageK (JVal.obj []) with
  | Except.error e => Except.error e
  | Except.ok msgV =>
    match dictGetD msgV argK (JVal.str []) with
    | Except.error e => Except.error e
    | Except.ok argJ =>
      match pyStrip argJ with
      | Except.error e => Except.error e
      | Except.ok text =>
        match dictGetD msgV threadK (JVal.obj []) with
        | Except.error e => Except.error e
        | Except.ok thV =>
          match dictGetD thV nameK JVal.null with
          | Except.error e => Except.error e
          | Except.ok threadName =>
            if text.isEmpty then Except.ok [(textK, JVal.str usage)]
            else Except.ok (pipelineResponse cfg text threadName)

/-- app.py lines 358-361: the legacy-format thread name,
`event.get("message", ...).get("thread", ...).get("name") if event.get("message") else None`. -/
def legacyThread (event : List (Str × JVal)) : Except Str JVal :=
  let msgTop := (jlookup event messageK).getD JVal.null
  if jTruthy msgTop then
    match dictGetD msgTop threadK (JVal.obj []) with
    | Except.error e => Except.error e
    | Except.ok thJ => dictGetD thJ nameK JVal.null
  else Except.ok JVal.null

/-- app.py lines 367-384: the legacy `MESSAGE` branch.  The text is
`(message.get("argumentText") or message.get("text") or "").strip()`. -/
def messageBody (cfg : Config) (event : List (Str × JVal)) (threadName : JVal) :
    Except Str (List (Str × JVal)) :=
  let m1 := (jlookup event messageK).getD (JVal.obj [])
  match dictGetD m1 argK JVal.null with
  | Except.error e => Except.error e
  | Except.ok argJ =>
    let textJStep :=
      if jTruthy argJ then Except.ok argJ
      else
        let m2 := (jlookup event messageK).getD (JVal.obj [])
        match dictGetD m2 textK JVal.null with
        | Except.error e => Except.error e
        | Except.ok tJ => Except.ok (if jTruthy tJ then tJ else JVal.str [])
    match textJStep with
    | Except.error e => Except.error e
    | Except.ok textJ =>
      match pyStrip textJ with
      | Except.error e => Except.error e
      | Except.ok text =>
        if text.isEmpty then Except.ok [(textK, JVal.str usageSlash)]
        else Except.ok (pipelineResponse cfg text threadName)

/-- app.py `chat_endpoint` (lines 273-387) after JSON decoding (the token
check at line 285 is commented out in the source). -/
def chat_endpoint (cfg : Config) (event : List (Str × JVal)) :
    Except Str (List (Str × JVal)) :=
  match chatGuard event acpK with
  | Except.error e => Except.error e
  | Except.ok true =>
    match eventIndex event chatK with
    | Except.error e => Except.error e
    | Except.ok chatV =>
      match dictIndex chatV acpK with
      | Except.error e => Except.error e
      | Except.ok payload => branchBody cfg payload usageSlash
  | Except.ok false =>
    match chatGuard event mpK with
    | Except.error e => Except.error e
    | Except.ok true =>
      match eventIndex event chatK with
      | Except.error e => Except.error e
      | Except.ok chatV =>
        match dictIndex chatV mpK with
        | Except.error e => Except.error e
        | Except.ok payload => branchBody cfg payload usageMention
    | Except.ok false =>
      match legacyThread event with
      | Except.error e => Except.error e
      | Except.ok threadName =>
        let etype := (jlookup event typeK).getD JVal.null
        if jIsStr etype (("ADDED_TO_SPACE").toList) then
          Except.ok [(textK, JVal.str greetingText)]
        else if jIsStr etype (("MESSAGE").toList) then
          messageBody cfg event threadName
        else Except.ok [(textK, JVal.str fallbackText)]

/-- The `text` field of a successful router response, when it is a string. -/
def respTextOf (r : Except Str (List (Str × JVal))) : Option Str :=
  match r with
  | Except.ok l =>
    match jlookup l textK with
    | some (JVal.str s) => some s
    | _ => none
  | Except.error _ => none

/-- Lookup of a field on a successful router response. -/
def respLookup (r : Except Str (List (Str × JVal))) (key : Str) : Option JVal :=
  match r with
  | Except.ok l => jlookup l key
  | Except.error _ => none

/-! ### Concrete inputs used by witnesses and counterexamples -/

/-- A configuration with no collaborators at all. -/
def cfg0 : Config where
  project := none
  store := fun _ _ => Except.ok []
  gen := none
  askDefaultSinceDays := 7
  clock := fun _ => []

/-- A configuration whose storage collaborator always raises. -/
def cfgStoreErr : Config where
  project := some (("proj").toList)
  store := fun _ _ => Except.error (("boom").toList)
  gen := none
  askDefaultSinceDays := 7
  clock := fun _ => []

/-- A Vertex collaborator that always raises. -/
def gBad : Str → Except Str Str := fun _ => Except.error (("boom").toList)

/-- An event carrying both `type: ADDED_TO_SPACE` and a slash-command
payload. -/
def evBoth : List (Str × JVal) :=
  [(typeK, JVal.str (("ADDED_TO_SPACE").toList)),
   (chatK, JVal.obj [(acpK, JVal.obj [(messageK, JVal.obj [(argK, JVal.str (("hi").toList))])])])]

/-- A bare `ADDED_TO_SPACE` event. -/
def evAdded : List (Str × JVal) :=
  [(typeK, JVal.str (("ADDED_TO_SPACE").toList))]

/-- A legacy `MESSAGE` event with no thread identifier. -/
def evMsgNoThread : List (Str × JVal) :=
  [(typeK, JVal.str (("MESSAGE").toList)),
   (messageK, JVal.obj [(textK, JVal.str (("hi").toList))])]

/-- Sixty rows, more than the Answer Composer's cap. -/
def rows60 : List Row := List.replicate 60 ([])

/-! ### Lemmas about the tokenizer and the parse loop -/

theorem splitWsAux_all (s : List Char) : ∀ (acc : List Char),
    (∀ c ∈ acc, pySpace c = false) →
    ∀ t ∈ splitWsAux s acc, t ≠ [] ∧ ∀ c ∈ t, pySpace c = false := by
  induction s with
  | nil =>
    intro acc hacc t ht
    cases he : acc.isEmpty with
    | true => simp [splitWsAux, he] at ht
    | false =>
      simp [splitWsAux, he] at ht
      subst ht
      refine ⟨?_, ?_⟩
      · simp only [ne_eq, List.reverse_eq_nil_iff]
        intro h
        rw [h] at he
        simp at he
      · intro c hc
        exact hacc c (List.mem_reverse.mp hc)
  | cons c cs ih =>
    intro acc hacc t ht
    cases hc : pySpace c with
    | true =>
      cases he : acc.isEmpty with
      | true =>
        simp [splitWsAux, hc, he] at ht
        exact ih [] (by simp) t ht
      | false =>
        simp [splitWsAux, hc, he] at ht
        rcases ht with ht | ht
        · subst ht
          refine ⟨?_, ?_⟩
          · simp only [ne_eq, List.reverse_eq_nil_iff]
            intro h
            rw [h] at he
            simp at he
          · intro x hx
            exact hacc x (List.mem_reverse.mp hx)
        · exact ih [] (by simp) t ht
    | false =>
      simp only [splitWsAux, hc] at ht
      simp at ht
      exact ih (c :: acc) (by
        intro x hx
        rcases List.mem_cons.mp hx with h | h
        · rw [h]; exact hc
        · exact hacc x h) t ht

theorem splitWs_tokens (s : Str) :
    ∀ t ∈ splitWs s, t ≠ [] ∧ ∀ c ∈ t, pySpace c = false :=
  splitWsAux_all s [] (by simp)

theorem splitWsAux_chunk (t : Str) : ∀ (rest acc : List Char),
    (∀ c ∈ t, pySpace c = false) →
    splitWsAux (t ++ rest) acc = splitWsAux rest (t.reverse ++ acc) := by
  induction t with
  | nil => intro rest acc _; simp
  | cons c t0 ih =>
    intro rest acc h
    have hc : pySpace c = false := h c (List.mem_cons_self c t0)
    have ht0 : ∀ x ∈ t0, pySpace x = false := fun x hx => h x (List.mem_cons_of_mem c hx)
    simp only [List.cons_append, splitWsAux, hc, Bool.false_eq_true, if_false, List.append_eq]
    rw [ih rest (c :: acc) ht0]
    simp [List.append_assoc]

theorem splitWs_joinWith (L : List Str)
    (h : ∀ t ∈ L, t ≠ [] ∧ ∀ c ∈ t, pySpace c = false) :
    splitWs (joinWith ([' ']) L) = L := by
  induction L with
  | nil => rfl
  | cons t ts ih =>
    have hne : t ≠ [] := (h t (List.mem_cons_self t ts)).1
    have hch : ∀ c ∈ t, pySpace c = false := (h t (List.mem_cons_self t ts)).2
    have hts : ∀ u ∈ ts, u ≠ [] ∧ ∀ c ∈ u, pySpace c = false :=
      fun u hu => h u (List.mem_cons_of_mem t hu)
    show splitWsAux (t ++ joinWithTail ([' ']) ts) [] = t :: ts
    rw [splitWsAux_chunk t _ [] hch]
    cases ts with
    | nil =>
      cases hrev : t.reverse with
      | nil => exact absurd (by simpa using hrev) hne
      | cons c r =>
        simp [joinWithTail, splitWsAux, hrev]
        have := congrArg List.reverse hrev
        simpa using this.symm
    | cons t1 ts1 =>
      have hjoin : joinWithTail ([' ']) (t1 :: ts1)
          = ' ' :: joinWith ([' ']) (t1 :: ts1) := by
        simp [joinWithTail, joinWith]
      rw [hjoin]
      have hrevne : t.reverse ++ [] ≠ [] := by
        simp only [List.append_nil, ne_eq, List.reverse_eq_nil_iff]
        exact hne
      cases hrev : t.reverse ++ [] with
      | nil => exact absurd hrev hrevne
      | cons c r =>
        have hsp : pySpace ' ' = true := rfl
        simp only [splitWsAux, hsp, hrev, if_true, List.isEmpty_cons, Bool.false_eq_true,
          if_false]
        rw [show splitWsAux (joinWith ([' ']) (t1 :: ts1)) [] = splitWs (joinWith ([' ']) (t1 :: ts1)) from rfl]
        rw [ih hts]
        have : (c :: r).reverse = t := by
          rw [← hrev]
          simp
        rw [this]

theorem rev_joinWith_head : ∀ (ts : List Str) (t : Str), t ≠ [] →
    (∀ c ∈ t, pySpace c = false) →
    (∀ u ∈ ts, u ≠ [] ∧ ∀ c ∈ u, pySpace c = false) →
    ∃ c r, (joinWith ([' ']) (t :: ts)).reverse = c :: r ∧ pySpace c = false := by
  intro ts
  induction ts with
  | nil =>
    intro t hne hch _
    cases hrev : t.reverse with
    | nil => exact absurd (by simpa using hrev) hne
    | cons c r =>
      refine ⟨c, r, ?_, ?_⟩
      · simpa [joinWith, joinWithTail] using hrev
      · refine hch c (List.mem_reverse.mp ?_)
        rw [hrev]
        exact List.mem_cons_self c r
  | cons t1 ts1 ih =>
    intro t hne hch hts
    obtain ⟨c, r, hcr, hc⟩ :=
      ih t1 (hts t1 (List.mem_cons_self t1 ts1)).1 (hts t1 (List.mem_cons_self t1 ts1)).2
        (fun u hu => hts u (List.mem_cons_of_mem t1 hu))
    refine ⟨c, r ++ ' ' :: t.reverse, ?_, hc⟩
    have hjoin : joinWith ([' ']) (t :: t1 :: ts1)
        = t ++ (' ' :: joinWith ([' ']) (t1 :: ts1)) := by
      simp [joinWith, joinWithTail]
    rw [hjoin, List.reverse_append, List.reverse_cons, List.append_assoc, hcr]
    simp

theorem strip_joinWith (L : List Str)
    (h : ∀ t ∈ L, t ≠ [] ∧ ∀ c ∈ t, pySpace c = false) :
    strip (joinWith ([' ']) L) = joinWith ([' ']) L := by
  cases L with
  | nil => rfl
  | cons t ts =>
    have hne : t ≠ [] := (h t (List.mem_cons_self t ts)).1
    have hch : ∀ c ∈ t, pySpace c = false := (h t (List.mem_cons_self t ts)).2
    have hts : ∀ u ∈ ts, u ≠ [] ∧ ∀ c ∈ u, pySpace c = false :=
      fun u hu => h u (List.mem_cons_of_mem t hu)
    have hfront : (joinWith ([' ']) (t :: ts)).dropWhile pySpace
        = joinWith ([' ']) (t :: ts) := by
      cases t with
      | nil => exact absurd rfl hne
      | cons c t0 =>
        have hc : pySpace c = false := hch c (List.mem_cons_self c t0)
        show (((c :: t0) ++ joinWithTail ([' ']) ts).dropWhile pySpace) = _
        simp [List.dropWhile_cons, hc, joinWith]
    obtain ⟨c, r, hcr, hc⟩ := rev_joinWith_head ts t hne hch hts
    unfold strip
    rw [hfront, hcr, List.dropWhile_cons]
    simp only [hc, Bool.false_eq_true, if_false]
    have := congrArg List.reverse hcr
    simpa using this.symm

theorem parseLoop_parts (toks : List Str) : ∀ (parts : List Str) (sv : Option Str) (si : Int),
    (parseLoop toks (parts, sv, si)).1 = parts ++ toks.filter keepTok := by
  induction toks with
  | nil => intro parts sv si; simp [parseLoop]
  | cons tok rest ih =>
    intro parts sv si
    cases h1 : startsWith svcTag (lowerStr tok) with
    | true =>
      have hk : keepTok tok = false := by simp [keepTok, h1]
      simp only [parseLoop, h1, if_true]
      rw [ih, List.filter_cons, hk]
      simp
    | false =>
      cases h2 : startsWith sinceTag (lowerStr tok) with
      | true =>
        have hk : keepTok tok = false := by simp [keepTok, h2]
        simp only [parseLoop, h1, h2, Bool.false_eq_true, if_false, if_true]
        cases hpi : pyInt (afterFirstColon tok) with
        | none =>
          rw [ih, List.filter_cons, hk]
          simp
        | some n =>
          rw [ih, List.filter_cons, hk]
          simp
      | false =>
        have hk : keepTok tok = true := by simp [keepTok, h1, h2]
        simp only [parseLoop, h1, h2, Bool.false_eq_true, if_false]
        rw [ih, List.filter_cons, hk]
        simp

theorem parseLoop_keep (toks : List Str) : ∀ (parts : List Str) (sv : Option Str) (si : Int),
    (∀ t ∈ toks, keepTok t = true) →
    parseLoop toks (parts, sv, si) = (parts ++ toks, sv, si) := by
  induction toks with
  | nil => intro parts sv si _; simp [parseLoop]
  | cons tok rest ih =>
    intro parts sv si h
    have hk := h tok (List.mem_cons_self tok rest)
    simp only [keepTok, Bool.and_eq_true, Bool.not_eq_true'] at hk
    simp only [parseLoop, hk.1, hk.2, Bool.false_eq_true, if_false]
    rw [ih (parts ++ [tok]) sv si (fun t ht => h t (List.mem_cons_of_mem tok ht))]
    simp

theorem parseLoop_since_ge (toks : List Str) : ∀ (parts : List Str) (sv : Option Str) (si : Int),
    1 ≤ si → 1 ≤ (parseLoop toks (parts, sv, si)).2.2 := by
  induction toks with
  | nil => intro parts sv si h; simpa [parseLoop] using h
  | cons tok rest ih =>
    intro parts sv si h
    cases h1 : startsWith svcTag (lowerStr tok) with
    | true =>
      simp only [parseLoop, h1, if_true]
      exact ih _ _ _ h
    | false =>
      cases h2 : startsWith sinceTag (lowerStr tok) with
      | true =>
        simp only [parseLoop, h1, h2, Bool.false_eq_true, if_false, if_true]
        cases hpi : pyInt (afterFirstColon tok) with
        | none => exact ih _ _ _ h
        | some n => exact ih _ _ _ (le_max_left 1 n)
      | false =>
        simp only [parseLoop, h1, h2, Bool.false_eq_true, if_false]
        exact ih _ _ _ h

/-! ### Claim C1 -/

/-- Claim C1, counterexample: the claim quantifies over every default
lookback value, but `parse_prompt_and_filters` initializes `since_days`
to the default unclamped; with default `0` and empty input it returns
`since_days = 0 < 1`. -/
theorem parse_default_counterexample :
    ¬ (1 ≤ (parse_prompt_and_filters ([]) 0).2.2) := by decide

/-- Claim C1 (amended): for every input text and every default lookback
value that is at least 1, `parse_prompt_and_filters` is total (a Lean
function), and the returned `since_days` is ≥ 1; the question is a
(possibly empty) string and the service is an optional (possibly empty)
string by construction of the result type. -/
theorem parse_total_since_clamped (text : Str) (d : Int) (h : 1 ≤ d) :
    1 ≤ (parse_prompt_and_filters text d).2.2 := by
  show 1 ≤ (parseLoop (splitWs text) ([], none, d)).2.2
  exact parseLoop_since_ge (splitWs text) [] none d h

/-- Witness for the amended C1 at a concrete input: default 7, a `since:0`
token clamped to 1. -/
theorem parse_total_since_clamped_witness :
    1 ≤ (parse_prompt_and_filters (("why since:0").toList) 7).2.2 :=
  parse_total_since_clamped (("why since:0").toList) 7 (by decide)

/-! ### Claim C2 -/

/-- Claim C2: `parse_prompt_and_filters` agrees with the three worked
examples of the spec (filters extracted, empty service distinct from
absent, invalid `since:` ignored, `since:0` clamped to 1). -/
theorem parse_worked_examples :
    parse_prompt_and_filters (("why fail? service:auth since:3").toList) 7
      = ((("why fail?").toList), some (("auth").toList), 3) ∧
    parse_prompt_and_filters (("service: since:abc test").toList) 7
      = ((("test").toList), some ([]), 7) ∧
    parse_prompt_and_filters (("since:0 ping").toList) 7
      = ((("ping").toList), none, 1) := by
  refine ⟨?_, ?_, ?_⟩ <;> rfl

/-! ### Claim C9 -/

/-- Claim C9: `parse_prompt_and_filters` is idempotent on its own
question output — re-parsing the returned question with the same default
returns the question unchanged, with no service filter and the default
`since_days`. -/
theorem parse_idempotent (text : Str) (d : Int) :
    parse_prompt_and_filters (parse_prompt_and_filters text d).1 d
      = ((parse_prompt_and_filters text d).1, none, d) := by
  have hparts : (parseLoop (splitWs text) ([], none, d)).1
      = (splitWs text).filter keepTok := by
    simpa using parseLoop_parts (splitWs text) [] none d
  have hcond : ∀ t ∈ (splitWs text).filter keepTok,
      t ≠ [] ∧ ∀ c ∈ t, pySpace c = false := by
    intro t ht
    exact splitWs_tokens text t (List.mem_of_mem_filter ht)
  have hkeep : ∀ t ∈ (splitWs text).filter keepTok, keepTok t = true := by
    intro t ht
    exact List.of_mem_filter ht
  have hq : (parse_prompt_and_filters text d).1
      = joinWith ([' ']) ((splitWs text).filter keepTok) := by
    show strip (joinWith ([' ']) (parseLoop (splitWs text) ([], none, d)).1) = _
    rw [hparts]
    exact strip_joinWith _ hcond
  rw [hq]
  show (strip (joinWith ([' '])
        (parseLoop (splitWs (joinWith ([' ']) ((splitWs text).filter keepTok))) ([], none, d)).1),
      (parseLoop (splitWs (joinWith ([' ']) ((splitWs text).filter keepTok))) ([], none, d)).2.1,
      (parseLoop (splitWs (joinWith ([' ']) ((splitWs text).filter keepTok))) ([], none, d)).2.2)
      = (joinWith ([' ']) ((splitWs text).filter keepTok), none, d)
  rw [splitWs_joinWith _ hcond, parseLoop_keep _ [] none d hkeep]
  simp only [List.nil_append]
  rw [strip_joinWith _ hcond]

/-! ### Claim C3 -/

/-- Claim C3, counterexample: with a present-but-empty service filter
(`some []`, as produced by a bare `service:` token) the WHERE clause
omits the service condition and no query parameter is attached: the
filter is tested with Python truthiness (`if service:`), which treats the
empty string like absence. -/
theorem service_filter_empty_counterexample :
    pyTruthyOptStr (some ([] : Str)) = false ∧
    buildWhere (some []) (("2024-01-01T00:00:00+00:00").toList)
      = [tsCond (("2024-01-01T00:00:00+00:00").toList)] ∧
    ¬ (svcCond ∈ buildWhere (some []) (("2024-01-01T00:00:00+00:00").toList)) ∧
    queryParams (some []) = none := by
  refine ⟨rfl, rfl, by decide, rfl⟩

/-- Claim C3 (amended): the query issued by `fetch_logs` contains the
case-insensitive service condition exactly when the service filter is
present AND non-empty; for an absent or empty-string filter the condition
is omitted. -/
theorem service_condition_iff_nonempty (service : Option Str) (startTs : Str) :
    svcCond ∈ buildWhere service startTs ↔ ∃ s, service = some s ∧ s ≠ [] := by
  have hne : svcCond ≠ tsCond startTs := by
    intro h
    have h0 := congrArg List.head? h
    rw [show svcCond.head? = some 'L' from rfl,
      show (tsCond startTs).head? = some 't' from rfl] at h0
    exact absurd h0 (by decide)
  unfold buildWhere
  cases service with
  | none => simp [pyTruthyOptStr, hne]
  | some s =>
    cases s with
    | nil => simp [pyTruthyOptStr, hne]
    | cons a s0 => simp [pyTruthyOptStr, hne]

/-! ### Claim C4 -/

/-- Claim C4: `fetch_logs` returns the empty list (and, being a total
Lean function, raises nothing) both when no storage project is configured
and when the storage call on the built query raises internally. -/
theorem fetch_logs_degrades (cfg : Config) (service : Option Str) (d : Int) (p e : Str) :
    (cfg.project = none → fetch_logs cfg service d = []) ∧
    (cfg.project = some p →
      cfg.store (buildSql p service (cfg.clock d)) (queryParams service) = Except.error e →
      fetch_logs cfg service d = []) := by
  constructor
  · intro h
    simp [fetch_logs, h]
  · intro hp hs
    unfold fetch_logs
    rw [hp]
    show (if List.isEmpty p = true then []
      else
        match cfg.store (buildSql p service (cfg.clock d)) (queryParams service) with
        | Except.ok rows => rows
        | Except.error _ => []) = []
    cases hpe : p.isEmpty with
    | true => rfl
    | false =>
      rw [if_neg (by simp), hs]

/-- Witness for C4: a config with no project, and one whose store always
raises. -/
theorem fetch_logs_degrades_witness :
    fetch_logs cfg0 none 3 = [] ∧ fetch_logs cfgStoreErr none 3 = [] :=
  ⟨(fetch_logs_degrades cfg0 none 3 (("proj").toList) (("boom").toList)).1 rfl,
   (fetch_logs_degrades cfgStoreErr none 3 (("proj").toList) (("boom").toList)).2 rfl rfl⟩

/-! ### Claim C5 -/

/-- Claim C5: with no answering collaborator configured, `llm_answer`
returns the deterministic fallback string carrying the literal row count
and the verbatim question; when the collaborator call raises, it returns
the Vertex-error string, which differs from every fallback string — no
exception propagates (the embedding is a total function). -/
theorem llm_answer_fallback_and_failure (g : Str → Except Str Str)
    (q q2 : Str) (rows rows2 : List Row) (e : Str) :
    (llm_answer none q rows = fbPre ++ natStr rows.length ++ fbMid ++ q) ∧
    (g (llm_prompt q2 rows2) = Except.error e →
      llm_answer (some g) q2 rows2 = vertexErrPre ++ e ++ ([')']) ∧
      llm_answer (some g) q2 rows2 ≠ llm_answer none q rows) := by
  refine ⟨rfl, ?_⟩
  intro hg
  have herr : llm_answer (some g) q2 rows2 = vertexErrPre ++ e ++ ([')']) := by
    simp [llm_answer, hg]
  refine ⟨herr, ?_⟩
  rw [herr, show llm_answer none q rows = fbPre ++ natStr rows.length ++ fbMid ++ q from rfl]
  intro hcontra
  have h8 : (vertexErrPre ++ e ++ ([')']))[8]?
      = (fbPre ++ natStr rows.length ++ fbMid ++ q)[8]? := by rw [hcontra]
  have hl1 : 8 < (vertexErrPre ++ e).length := by
    rw [List.length_append]
    have h15 : vertexErrPre.length = 15 := rfl
    omega
  have hl2 : 8 < (fbPre ++ natStr rows.length ++ fbMid).length := by
    rw [List.length_append, List.length_append]
    have h46 : fbPre.length = 46 := rfl
    omega
  have hl3 : 8 < (fbPre ++ natStr rows.length).length := by
    rw [List.length_append]
    have h46 : fbPre.length = 46 := rfl
    omega
  rw [List.getElem?_append_left hl1,
    List.getElem?_append_left (show 8 < vertexErrPre.length by decide),
    List.getElem?_append_left hl2,
    List.getElem?_append_left hl3,
    List.getElem?_append_left (show 8 < fbPre.length by decide)] at h8
  exact absurd h8 (by decide)

/-- Witness for C5 with a collaborator that always raises. -/
theorem llm_answer_fallback_and_failure_witness :
    llm_answer (some gBad) (("why").toList) [] = vertexErrPre ++ (("boom").toList) ++ ([')']) ∧
    llm_answer (some gBad) (("why").toList) [] ≠ llm_answer none (("why").toList) [] :=
  (llm_answer_fallback_and_failure gBad (("why").toList) (("why").toList) [] []
    (("boom").toList)).2 rfl

/-! ### Claim C6 -/

/-- Claim C6: the rows serialized into the collaborator prompt are
`rows[: min(len(rows), 50)]` — never more than 50, independently of how
many rows the fetcher returned. -/
theorem llm_context_bounded (rows : List Row) :
    (llm_context_rows rows).length ≤ 50 ∧
    (rows ≠ [] → context_snippets rows = jsonRowsStr (llm_context_rows rows)) := by
  constructor
  · simp only [llm_context_rows, List.length_take]
    omega
  · intro h
    cases rows with
    | nil => exact absurd rfl h
    | cons a l => rfl

/-- Witness for C6 on sixty rows: the serialized context is capped at 50. -/
theorem llm_context_bounded_witness :
    (llm_context_rows rows60).length ≤ 50 ∧
    context_snippets rows60 = jsonRowsStr (llm_context_rows rows60) :=
  ⟨(llm_context_bounded rows60).1, (llm_context_bounded rows60).2 (by decide)⟩

/-! ### Claim C7 -/

/-- Claim C7, counterexample: an event whose `type` is `ADDED_TO_SPACE`
but which also carries a truthy `chat.appCommandPayload` is routed to the
slash-command pipeline (checked first, app.py line 288), not to the
greeting. -/
theorem added_to_space_counterexample :
    jlookup evBoth typeK = some (JVal.str (("ADDED_TO_SPACE").toList)) ∧
    respTextOf (chat_endpoint cfg0 evBoth) ≠ some greetingText := by
  refine ⟨rfl, by decide⟩

/-- Claim C7 (amended): an event whose `type` equals `ADDED_TO_SPACE`
returns the static greeting provided the chat-payload guards evaluate to
false (no truthy `chat.appCommandPayload` or `chat.messagePayload`) and
the legacy thread extraction from `event.message` does not raise. -/
theorem added_to_space_greeting (cfg : Config) (event : List (Str × JVal)) (th : JVal)
    (h1 : chatGuard event acpK = Except.ok false)
    (h2 : chatGuard event mpK = Except.ok false)
    (h3 : legacyThread event = Except.ok th)
    (h4 : jlookup event typeK = some (JVal.str (("ADDED_TO_SPACE").toList))) :
    chat_endpoint cfg event = Except.ok [(textK, JVal.str greetingText)] := by
  unfold chat_endpoint
  rw [h1, h2, h3, h4]
  simp [jIsStr]

/-- Witness for the amended C7: a bare `ADDED_TO_SPACE` event. -/
theorem added_to_space_greeting_witness :
    chat_endpoint cfg0 evAdded = Except.ok [(textK, JVal.str greetingText)] :=
  added_to_space_greeting cfg0 evAdded JVal.null rfl rfl rfl rfl

/-! ### Claim C8 -/

/-- Claim C8, counterexample: a legacy `MESSAGE` event with no thread
identifier yields a pipeline response in which the `thread` field is
present and set to null — not omitted as the claim states (the dict
literal at app.py lines 315-318 and 384 always includes the key). -/
theorem thread_null_counterexample :
    respLookup (chat_endpoint cfg0 evMsgNoThread) threadK = some JVal.null := rfl

/-- Claim C8 (amended): in pipeline responses a truthy thread name is
echoed back unchanged (wrapped as an object under `name`), while a falsy
or absent one yields a `thread` field explicitly set to null rather than
omitted; greeting/usage responses carry no `thread` field at all. -/
theorem thread_echo_behavior (cfg : Config) (text : Str) (th : JVal) :
    (jTruthy th = true →
      jlookup (pipelineResponse cfg text th) threadK = some (JVal.obj [(nameK, th)])) ∧
    (jTruthy th = false →
      jlookup (pipelineResponse cfg text th) threadK = some JVal.null) ∧
    jlookup [(textK, JVal.str greetingText)] threadK = none := by
  have hne : ¬ (textK = threadK) := by decide
  refine ⟨?_, ?_, rfl⟩
  · intro h
    simp [pipelineResponse, jlookup, hne, h]
  · intro h
    simp [pipelineResponse, jlookup, hne, h]

/-- Witness for the amended C8: with a null thread name the pipeline
response carries an explicit null `thread` field. -/
theorem thread_echo_behavior_witness :
    jlookup (pipelineResponse cfg0 (("hi").toList) JVal.null) threadK = some JVal.null :=
  (thread_echo_behavior cfg0 (("hi").toList) JVal.null).2.1 rfl

/-! ### Claim C10 -/

/-- Claim C10: the severity glyph lookup uppercases the severity before
the dict lookup, so it is case-insensitive; the default glyph is returned
exactly when the uppercased severity is none of LOW/MEDIUM/HIGH/CRITICAL. -/
theorem severity_emoji_case_insensitive (sev : Str) :
    (upperStr sev = ("LOW").toList → severity_emoji sev = ("🟡").toList) ∧
    (upperStr sev = ("MEDIUM").toList → severity_emoji sev = ("🟠").toList) ∧
    (upperStr sev = ("HIGH").toList → severity_emoji sev = ("🔴").toList) ∧
    (upperStr sev = ("CRITICAL").toList → severity_emoji sev = ("🚨").toList) ∧
    (severity_emoji sev = ("⚪").toList ↔
      (upperStr sev ≠ ("LOW").toList ∧ upperStr sev ≠ ("MEDIUM").toList ∧
       upperStr sev ≠ ("HIGH").toList ∧ upperStr sev ≠ ("CRITICAL").toList)) := by
  have hemoji : severity_emoji sev =
      (if upperStr sev = ("LOW").toList then ("🟡").toList
       else if upperStr sev = ("MEDIUM").toList then ("🟠").toList
       else if upperStr sev = ("HIGH").toList then ("🔴").toList
       else if upperStr sev = ("CRITICAL").toList then ("🚨").toList
       else ("⚪").toList) := by
    simp only [severity_emoji, severityMap, assocGetD]
    simp [eq_comm]
  rw [hemoji]
  split_ifs with hA hB hC hD <;>
    refine ⟨?_, ?_, ?_, ?_, ?_⟩ <;>
      simp_all

/-- Witness for C10 at the lowercase input of the claim: `"critical"`
maps to the critical glyph. -/
theorem severity_emoji_case_insensitive_witness :
    severity_emoji (("critical").toList) = ("🚨").toList :=
  (severity_emoji_case_insensitive (("critical").toList)).2.2.2.1 rfl

end Alerting
